import Mathlib

/-!
Verification of the addressing and configuration-resolution layer of a
publish/subscribe service-mesh node (src/config.rs and src/channel/name.rs):
the Config data model, the builder with its defaults, the channel-role →
topic-string derivation, and the serialization contract.

Modelling conventions:
- Rust `String` is Lean `String`; `u32`/`i32` are `Nat`/`Int` (no arithmetic
  is performed on them, so no overflow reduction is needed); `f32` values are
  exact rationals (the only one occurring, `0.5`, is exactly representable);
  `Vec<T>` is `List T`; `HashMap<K, V>` is an association list `List (K × V)`
  in insertion/iteration order.
- Environment effects (hostname lookup, UUID generation, network-interface
  enumeration) are passed to `ConfigBuilder.build` as explicit arguments.
- Fallible operations return `Except`.
-/

/-- Log levels of the external `log` crate (`log::Level`); the repository only
selects `Info` as the default and serializes the value. -/
inductive Level where
  | Error
  | Warn
  | Info
  | Debug
  | Trace
deriving DecidableEq

/-- `Logger` from src/config.rs. -/
inductive Logger where
  | Console
deriving DecidableEq

/-- `Transporter` from src/config.rs: one variant carrying a connection
address string. -/
inductive Transporter where
  | Nats (addr : String)
deriving DecidableEq

/-- `RetryPolicy` from src/config.rs. -/
structure RetryPolicy where
  enabled : Bool
  retries : Nat
  delay : Nat
  max_delay : Nat
  factor : Nat
deriving DecidableEq

/-- `Tracking` from src/config.rs. -/
structure Tracking where
  enabled : Bool
  shutdown_timeout : Nat
deriving DecidableEq

/-- `Serializer` from src/config.rs: tagged variant selecting a wire codec. -/
inductive Serializer where
  | JSON
deriving DecidableEq

/-- `Registry` from src/config.rs. -/
inductive Registry where
  | Local
deriving DecidableEq

/-- `CircuitBreaker` from src/config.rs. `threshold` is an `f32` in the
source; the only value the repository ever stores is `0.5`, which is exactly
representable, so the field is modelled as an exact rational. -/
structure CircuitBreaker where
  enabled : Bool
  threshold : Rat
  min_request_count : Nat
  window_time : Nat
  half_open_time : Nat
deriving DecidableEq

/-- `Bulkhead` from src/config.rs. -/
structure Bulkhead where
  enabled : Bool
  concurrency : Nat
  max_queue_size : Nat
deriving DecidableEq

/-- `Transit` from src/config.rs. -/
structure Transit where
  max_queue_size : Nat
  max_chunk_size : Nat
  disable_reconnect : Bool
  disable_version_check : Bool
  packet_log_filter : List String
deriving DecidableEq

/-- `Config` from src/config.rs, fields in source order. `meta_data` is a
`HashMap<String, String>` in the source, modelled as an association list. -/
structure Config where
  «namespace» : String
  node_id : String
  logger : Logger
  log_level : Level
  transporter : Transporter
  request_timeout : Int
  retry_policy : RetryPolicy
  context_params_cloning : Bool
  dependency_internal : Nat
  max_call_level : Nat
  heartbeat_interval : Nat
  heartbeat_timeout : Nat
  tracking : Tracking
  disable_balancer : Bool
  registry : Registry
  circuit_breaker : CircuitBreaker
  bulkhead : Bulkhead
  transit : Transit
  serializer : Serializer
  meta_data : List (String × String)
  ip_list : List String
  hostname : String
  instance_id : String

/-- `ConfigBuilder` from src/config.rs: the user-override surface, without the
three build-time enrichment fields. -/
structure ConfigBuilder where
  «namespace» : String
  node_id : String
  logger : Logger
  log_level : Level
  transporter : Transporter
  request_timeout : Int
  retry_policy : RetryPolicy
  context_params_cloning : Bool
  dependency_internal : Nat
  max_call_level : Nat
  heartbeat_interval : Nat
  heartbeat_timeout : Nat
  tracking : Tracking
  disable_balancer : Bool
  registry : Registry
  circuit_breaker : CircuitBreaker
  bulkhead : Bulkhead
  transit : Transit
  serializer : Serializer
  meta_data : List (String × String)

/-- `impl Default for RetryPolicy` (src/config.rs lines 216-226). -/
def RetryPolicy.default : RetryPolicy :=
  { enabled := false, retries := 5, delay := 100, max_delay := 2000, factor := 2 }

/-- `impl Default for Tracking` (src/config.rs lines 228-235). -/
def Tracking.default : Tracking :=
  { enabled := false, shutdown_timeout := 10000 }

/-- `impl Default for CircuitBreaker` (src/config.rs lines 237-247). -/
def CircuitBreaker.default : CircuitBreaker :=
  { enabled := false, threshold := 1 / 2, min_request_count := 20,
    window_time := 60, half_open_time := 10000 }

/-- `impl Default for Bulkhead` (src/config.rs lines 249-257). -/
def Bulkhead.default : Bulkhead :=
  { enabled := false, concurrency := 3, max_queue_size := 10 }

/-- `impl Default for Transit` (src/config.rs lines 259-269). -/
def Transit.default : Transit :=
  { max_queue_size := 50000, max_chunk_size := 256, disable_reconnect := false,
    disable_version_check := false, packet_log_filter := [] }

/-- Modelled from the spec: `util::gen_node_id` lives in src/util.rs, which is
not among the visible sources. Per the spec (§4.1) it returns "a randomly
generated human-readable identifier (hostname-derived or random token)
guaranteed non-empty". The randomness is made explicit as a seed; the result
is non-empty for every seed. -/
def gen_node_id (seed : Nat) : String :=
  "node-" ++ toString seed

/-- `impl Default for ConfigBuilder` (src/config.rs lines 74-99). The node-id
generator's randomness is threaded through explicitly as `seed`. -/
def ConfigBuilder.default (seed : Nat) : ConfigBuilder :=
  { «namespace» := ""
    node_id := gen_node_id seed
    logger := Logger.Console
    log_level := Level.Info
    transporter := Transporter.Nats "nats://localhost:4222"
    request_timeout := 0
    retry_policy := RetryPolicy.default
    context_params_cloning := false
    dependency_internal := 1000
    max_call_level := 0
    heartbeat_interval := 5
    heartbeat_timeout := 15
    tracking := Tracking.default
    disable_balancer := false
    registry := Registry.Local
    circuit_breaker := CircuitBreaker.default
    bulkhead := Bulkhead.default
    transit := Transit.default
    serializer := Serializer.JSON
    meta_data := [] }

/-- `ConfigBuilder::new` (src/config.rs lines 34-36). -/
def ConfigBuilder.new (seed : Nat) : ConfigBuilder :=
  ConfigBuilder.default seed

/-- IP addresses as in `std::net::IpAddr`: a V4 address with four octets or a
V6 address with eight 16-bit segments. -/
inductive IpAddr where
  | V4 (a b c d : Nat)
  | V6 (segs : List Nat)
deriving DecidableEq

/-- `IpAddr::is_ipv4` from the Rust standard library. -/
def IpAddr.is_ipv4 : IpAddr → Bool
  | IpAddr.V4 _ _ _ _ => true
  | IpAddr.V6 _ => false

/-- `IpAddr::is_loopback` from the Rust standard library: an IPv4 address is
loopback iff its first octet is 127; the IPv6 loopback is `::1`. -/
def IpAddr.is_loopback : IpAddr → Bool
  | IpAddr.V4 a _ _ _ => a == 127
  | IpAddr.V6 segs => segs == [0, 0, 0, 0, 0, 0, 0, 1]

/-- Display rendering of an address (`ip.to_string()` in the source). -/
def IpAddr.to_string : IpAddr → String
  | IpAddr.V4 a b c d =>
      toString a ++ "." ++ toString b ++ "." ++ toString c ++ "." ++ toString d
  | IpAddr.V6 segs => String.intercalate ":" (segs.map toString)

/-- One entry of `get_if_addrs::get_if_addrs()`: only the address (as read by
`interface.addr.ip()` in src/config.rs line 66) matters to this layer. -/
structure Interface where
  ip : IpAddr

/-- `ConfigBuilder::build` (src/config.rs lines 38-71). The build-time
environment reads are explicit arguments: `hostname` (`util::hostname()`),
`instance_id` (`Uuid::new_v4().to_string()`), and `ifaddrs` (the result of
`get_if_addrs::get_if_addrs()`, an error when enumeration fails). The
`unwrap_or_default()` of the source is the `match` on `ifaddrs`. -/
def ConfigBuilder.build (self : ConfigBuilder) (hostname : String)
    (instance_id : String) (ifaddrs : Except String (List Interface)) : Config :=
  { «namespace» := self.«namespace»
    node_id := self.node_id
    logger := self.logger
    log_level := self.log_level
    transporter := self.transporter
    request_timeout := self.request_timeout
    retry_policy := self.retry_policy
    context_params_cloning := self.context_params_cloning
    dependency_internal := self.dependency_internal
    max_call_level := self.max_call_level
    heartbeat_interval := self.heartbeat_interval
    heartbeat_timeout := self.heartbeat_timeout
    tracking := self.tracking
    disable_balancer := self.disable_balancer
    registry := self.registry
    circuit_breaker := self.circuit_breaker
    bulkhead := self.bulkhead
    transit := self.transit
    serializer := self.serializer
    meta_data := self.meta_data
    hostname := hostname
    instance_id := instance_id
    ip_list :=
      (((((match ifaddrs with
           | Except.ok l => l
           | Except.error _ => []) : List Interface).map
              (fun itf => itf.ip)).filter
                (fun ip => ip.is_ipv4 && !ip.is_loopback)).map
                  (fun ip => ip.to_string)) }

/-- The namespace-prefix helper `mol` (src/config.rs lines 326-332). -/
def mol (config : Config) : String :=
  if config.«namespace».isEmpty then "MOL" else "MOL-" ++ config.«namespace»

/-- `Channel` (src/config.rs lines 271-286), variants in source order (which
is also the `EnumIter` iteration order). -/
inductive Channel where
  | Event
  | Request
  | Response
  | Discover
  | DiscoverTargeted
  | Info
  | InfoTargeted
  | Heartbeat
  | Ping
  | PongPrefix
  | Pong
  | PingTargeted
  | Disconnect
deriving DecidableEq, Fintype

/-- `Channel::iter()` of the derived `EnumIter`: all 13 variants in
declaration order. -/
def Channel.all : List Channel :=
  [Channel.Event, Channel.Request, Channel.Response, Channel.Discover,
   Channel.DiscoverTargeted, Channel.Info, Channel.InfoTargeted,
   Channel.Heartbeat, Channel.Ping, Channel.PongPrefix, Channel.Pong,
   Channel.PingTargeted, Channel.Disconnect]

/-- `Channel::channel_to_string` (src/config.rs lines 295-311); each arm is
the corresponding `format!` string. -/
def Channel.channel_to_string (c : Channel) (config : Config) : String :=
  match c with
  | Channel.Event => mol config ++ ".EVENT." ++ config.node_id
  | Channel.Request => mol config ++ ".REQ." ++ config.node_id
  | Channel.Response => mol config ++ ".RES." ++ config.node_id
  | Channel.Discover => mol config ++ ".DISCOVER"
  | Channel.DiscoverTargeted => mol config ++ ".DISCOVER." ++ config.node_id
  | Channel.Info => mol config ++ ".INFO"
  | Channel.InfoTargeted => mol config ++ ".INFO." ++ config.node_id
  | Channel.Heartbeat => mol config ++ ".HEARTBEAT"
  | Channel.Ping => mol config ++ ".PING"
  | Channel.PongPrefix => mol config ++ ".PONG"
  | Channel.Pong => mol config ++ ".PONG." ++ config.node_id
  | Channel.PingTargeted => mol config ++ ".PING." ++ config.node_id
  | Channel.Disconnect => mol config ++ ".DISCONNECT"

/-- `Channel::build_hashmap` (src/config.rs lines 289-293): the
`HashMap<Channel, String>` collected from the iterator is modelled as the
association list in iteration order (its 13 keys are distinct, so the map
holds exactly these bindings). -/
def Channel.build_hashmap (config : Config) : List (Channel × String) :=
  Channel.all.map (fun channel => (channel, channel.channel_to_string config))

namespace name

/-- The duplicated namespace-prefix helper `mol` of src/channel/name.rs
(lines 52-58). -/
def mol (config : Config) : String :=
  if config.«namespace».isEmpty then "MOL" else "MOL-" ++ config.«namespace»

/-- `name::event` (src/channel/name.rs). -/
def event (config : Config) : String :=
  mol config ++ ".EVENT." ++ config.node_id

/-- `name::request` (src/channel/name.rs). -/
def request (config : Config) : String :=
  mol config ++ ".REQ." ++ config.node_id

/-- `name::response` (src/channel/name.rs). -/
def response (config : Config) : String :=
  mol config ++ ".RES." ++ config.node_id

/-- `name::discover` (src/channel/name.rs). -/
def discover (config : Config) : String :=
  mol config ++ ".DISCOVER"

/-- `name::discover_targeted` (src/channel/name.rs). -/
def discover_targeted (config : Config) : String :=
  mol config ++ ".DISCOVER." ++ config.node_id

/-- `name::info` (src/channel/name.rs). -/
def info (config : Config) : String :=
  mol config ++ ".INFO"

/-- `name::info_targeted` (src/channel/name.rs). -/
def info_targeted (config : Config) : String :=
  mol config ++ ".INFO." ++ config.node_id

/-- `name::heartbeat` (src/channel/name.rs). -/
def heartbeat (config : Config) : String :=
  mol config ++ ".HEARTBEAT"

/-- `name::ping` (src/channel/name.rs). -/
def ping (config : Config) : String :=
  mol config ++ ".PING"

/-- `name::ping_targeted` (src/channel/name.rs). -/
def ping_targeted (config : Config) : String :=
  mol config ++ ".PING." ++ config.node_id

/-- `name::pong` (src/channel/name.rs). -/
def pong (config : Config) : String :=
  mol config ++ ".PONG." ++ config.node_id

/-- `name::disconnect` (src/channel/name.rs). -/
def disconnect (config : Config) : String :=
  mol config ++ ".DISCONNECT"

end name

/-- The `ROLE` word of each match arm of `Channel::channel_to_string`. -/
def Channel.roleWord : Channel → String
  | Channel.Event => "EVENT"
  | Channel.Request => "REQ"
  | Channel.Response => "RES"
  | Channel.Discover => "DISCOVER"
  | Channel.DiscoverTargeted => "DISCOVER"
  | Channel.Info => "INFO"
  | Channel.InfoTargeted => "INFO"
  | Channel.Heartbeat => "HEARTBEAT"
  | Channel.Ping => "PING"
  | Channel.PongPrefix => "PONG"
  | Channel.Pong => "PONG"
  | Channel.PingTargeted => "PING"
  | Channel.Disconnect => "DISCONNECT"

/-- Whether the match arm of `Channel::channel_to_string` appends
`.<node_id>` after the role word. -/
def Channel.appends_node_id : Channel → Bool
  | Channel.Event => true
  | Channel.Request => true
  | Channel.Response => true
  | Channel.Discover => false
  | Channel.DiscoverTargeted => true
  | Channel.Info => false
  | Channel.InfoTargeted => true
  | Channel.Heartbeat => false
  | Channel.Ping => false
  | Channel.PongPrefix => false
  | Channel.Pong => true
  | Channel.PingTargeted => true
  | Channel.Disconnect => false

/-- The characters a topic carries after the role word: `.<node_id>` for
node-scoped roles, nothing for broadcast roles. -/
def Channel.idTail (c : Channel) (config : Config) : List Char :=
  cond c.appends_node_id ('.' :: config.node_id.data) []

/-- Everything of a topic after the namespace prefix and its dot. -/
def Channel.restOf (c : Channel) (config : Config) : String :=
  c.roleWord ++ String.mk (c.idTail config)

/-- A concrete configuration for scenario checks, with the builder defaults in
the fields the topic derivation never reads. -/
def testConfig (ns nid : String) : Config :=
  { «namespace» := ns
    node_id := nid
    logger := Logger.Console
    log_level := Level.Info
    transporter := Transporter.Nats "nats://localhost:4222"
    request_timeout := 0
    retry_policy := RetryPolicy.default
    context_params_cloning := false
    dependency_internal := 1000
    max_call_level := 0
    heartbeat_interval := 5
    heartbeat_timeout := 15
    tracking := Tracking.default
    disable_balancer := false
    registry := Registry.Local
    circuit_breaker := CircuitBreaker.default
    bulkhead := Bulkhead.default
    transit := Transit.default
    serializer := Serializer.JSON
    meta_data := []
    ip_list := []
    hostname := "host"
    instance_id := "instance" }

/-- The node-scoped roles named by the claim. -/
def node_scoped_roles : List Channel :=
  [Channel.Event, Channel.Request, Channel.Response, Channel.DiscoverTargeted,
   Channel.InfoTargeted, Channel.PingTargeted, Channel.Pong]

/-- The broadcast roles named by the claim. -/
def broadcast_roles : List Channel :=
  [Channel.Discover, Channel.Info, Channel.Heartbeat, Channel.Ping,
   Channel.Disconnect, Channel.PongPrefix]

/-! ### The serialization contract

Modelled from the spec: the byte-level wire encoding is produced by the
external `serde_json` codec, which the spec (§1) treats as a pluggable
capability "not reimplemented by" this core. The wire document is therefore
modelled as the JSON value itself; a value's encoding is the image the derived
serde `Serialize`/`Deserialize` implementations map it to and from, with the
field keys and variant tags dictated by the attributes in src/config.rs.
JSON numbers are exact rationals (every `u32`/`i32` and the one `f32` value
`0.5` are exactly representable). -/

/-- A JSON document. -/
inductive Json where
  | null
  | bool (b : Bool)
  | num (q : Rat)
  | str (s : String)
  | arr (elems : List Json)
  | obj (fields : List (String × Json))

/-- The keys of a JSON object, in order (other documents have none). -/
def Json.objKeys : Json → List String
  | Json.obj fs => fs.map Prod.fst
  | _ => []

/-- Split a character list at every underscore (serde's word split for
snake_case names); empty segments are kept, as in Rust's `str::split`. -/
def splitUnderscore : List Char → List (List Char)
  | [] => [[]]
  | c :: rest =>
      if c = '_' then [] :: splitUnderscore rest
      else
        match splitUnderscore rest with
        | [] => [[c]]
        | seg :: segs => (c :: seg) :: segs

/-- Uppercase the first character (serde's `RenameRule` word capitalization). -/
def capitalizeWord : List Char → List Char
  | [] => []
  | c :: cs => c.toUpper :: cs

/-- serde's `RenameRule::PascalCase` on a snake_case field name: capitalize
each underscore-separated word and concatenate. -/
def pascalCase (s : String) : String :=
  String.mk (((splitUnderscore s.data).map capitalizeWord).flatten)

/-- serde's `RenameRule::CamelCase` on a snake_case field name: PascalCase
with the first character lowercased. This is what
`#[serde(rename_all = "camelCase")]` applies to every field without an
explicit `rename`. -/
def camelCase (s : String) : String :=
  match (pascalCase s).data with
  | [] => ""
  | c :: cs => String.mk (c.toLower :: cs)

/-- `log::Level`'s name string (`as_str` of the external log crate). -/
def Level.as_str : Level → String
  | Level.Error => "ERROR"
  | Level.Warn => "WARN"
  | Level.Info => "INFO"
  | Level.Debug => "DEBUG"
  | Level.Trace => "TRACE"

/-- Modelled from the spec: the external log crate serializes a `Level` as its
name string. -/
def Level.toJson (l : Level) : Json :=
  Json.str l.as_str

def Level.fromJson : Json → Except String Level
  | Json.str s =>
      if s = "ERROR" then Except.ok Level.Error
      else if s = "WARN" then Except.ok Level.Warn
      else if s = "INFO" then Except.ok Level.Info
      else if s = "DEBUG" then Except.ok Level.Debug
      else if s = "TRACE" then Except.ok Level.Trace
      else Except.error "unknown level"
  | _ => Except.error "expected a level string"

/-- serde: a unit enum variant serializes as its name string. -/
def Logger.toJson : Logger → Json
  | Logger.Console => Json.str "Console"

def Logger.fromJson : Json → Except String Logger
  | Json.str s =>
      if s = "Console" then Except.ok Logger.Console
      else Except.error "unknown logger"
  | _ => Except.error "expected a logger string"

/-- serde: a newtype enum variant serializes externally tagged, as a
one-field object. -/
def Transporter.toJson : Transporter → Json
  | Transporter.Nats addr => Json.obj [("Nats", Json.str addr)]

def Transporter.fromJson : Json → Except String Transporter
  | Json.obj [(tag, Json.str addr)] =>
      if tag = "Nats" then Except.ok (Transporter.Nats addr)
      else Except.error "unknown transporter"
  | _ => Except.error "expected a transporter object"

def Serializer.toJson : Serializer → Json
  | Serializer.JSON => Json.str "JSON"

def Serializer.fromJson : Json → Except String Serializer
  | Json.str s =>
      if s = "JSON" then Except.ok Serializer.JSON
      else Except.error "unknown serializer"
  | _ => Except.error "expected a serializer string"

def Registry.toJson : Registry → Json
  | Registry.Local => Json.str "Local"

def Registry.fromJson : Json → Except String Registry
  | Json.str s =>
      if s = "Local" then Except.ok Registry.Local
      else Except.error "unknown registry"
  | _ => Except.error "expected a registry string"

def boolFromJson : Json → Except String Bool
  | Json.bool b => Except.ok b
  | _ => Except.error "expected a boolean"

def strFromJson : Json → Except String String
  | Json.str s => Except.ok s
  | _ => Except.error "expected a string"

/-- A `u32` deserializes from an exact non-negative integral JSON number. -/
def natFromJson : Json → Except String Nat
  | Json.num q =>
      if q.den = 1 ∧ 0 ≤ q.num then Except.ok q.num.toNat
      else Except.error "expected an unsigned integer"
  | _ => Except.error "expected a number"

/-- An `i32` deserializes from an exact integral JSON number. -/
def intFromJson : Json → Except String Int
  | Json.num q =>
      if q.den = 1 then Except.ok q.num
      else Except.error "expected an integer"
  | _ => Except.error "expected a number"

/-- An `f32` deserializes from any JSON number. -/
def ratFromJson : Json → Except String Rat
  | Json.num q => Except.ok q
  | _ => Except.error "expected a number"

/-- Element-wise decoding of a `Vec<String>`. -/
def strListFromJson : List Json → Except String (List String)
  | [] => Except.ok []
  | Json.str s :: rest => (strListFromJson rest).map (fun l => s :: l)
  | _ :: _ => Except.error "expected a string element"

/-- Field-wise decoding of a `HashMap<String, String>` object. -/
def strPairsFromJson : List (String × Json) → Except String (List (String × String))
  | [] => Except.ok []
  | (k, Json.str v) :: rest => (strPairsFromJson rest).map (fun l => (k, v) :: l)
  | _ :: _ => Except.error "expected a string value"

/-- Look a serialized field up by key (serde matches fields by name). -/
def jsonLookup (fs : List (String × Json)) (key : String) : Except String Json :=
  match fs.lookup key with
  | some j => Except.ok j
  | none => Except.error "missing field"

def boolField (fs : List (String × Json)) (key : String) : Except String Bool :=
  (jsonLookup fs key).bind boolFromJson

def strField (fs : List (String × Json)) (key : String) : Except String String :=
  (jsonLookup fs key).bind strFromJson

def natField (fs : List (String × Json)) (key : String) : Except String Nat :=
  (jsonLookup fs key).bind natFromJson

def intField (fs : List (String × Json)) (key : String) : Except String Int :=
  (jsonLookup fs key).bind intFromJson

def ratField (fs : List (String × Json)) (key : String) : Except String Rat :=
  (jsonLookup fs key).bind ratFromJson

/-- serde image of `RetryPolicy` (`rename_all = "camelCase"`). -/
def RetryPolicy.toJson (p : RetryPolicy) : Json :=
  Json.obj
    [("enabled", Json.bool p.enabled),
     ("retries", Json.num (p.retries : Rat)),
     ("delay", Json.num (p.delay : Rat)),
     ("maxDelay", Json.num (p.max_delay : Rat)),
     ("factor", Json.num (p.factor : Rat))]

def RetryPolicy.fromJson : Json → Except String RetryPolicy
  | Json.obj fs => do
      let enabled ← boolField fs "enabled"
      let retries ← natField fs "retries"
      let delay ← natField fs "delay"
      let max_delay ← natField fs "maxDelay"
      let factor ← natField fs "factor"
      Except.ok { enabled, retries, delay, max_delay, factor }
  | _ => Except.error "expected a retryPolicy object"

/-- serde image of `Tracking` (`rename_all = "camelCase"`). -/
def Tracking.toJson (t : Tracking) : Json :=
  Json.obj
    [("enabled", Json.bool t.enabled),
     ("shutdownTimeout", Json.num (t.shutdown_timeout : Rat))]

def Tracking.fromJson : Json → Except String Tracking
  | Json.obj fs => do
      let enabled ← boolField fs "enabled"
      let shutdown_timeout ← natField fs "shutdownTimeout"
      Except.ok { enabled, shutdown_timeout }
  | _ => Except.error "expected a tracking object"

/-- serde image of `CircuitBreaker` (`rename_all = "camelCase"`). -/
def CircuitBreaker.toJson (c : CircuitBreaker) : Json :=
  Json.obj
    [("enabled", Json.bool c.enabled),
     ("threshold", Json.num c.threshold),
     ("minRequestCount", Json.num (c.min_request_count : Rat)),
     ("windowTime", Json.num (c.window_time : Rat)),
     ("halfOpenTime", Json.num (c.half_open_time : Rat))]

def CircuitBreaker.fromJson : Json → Except String CircuitBreaker
  | Json.obj fs => do
      let enabled ← boolField fs "enabled"
      let threshold ← ratField fs "threshold"
      let min_request_count ← natField fs "minRequestCount"
      let window_time ← natField fs "windowTime"
      let half_open_time ← natField fs "halfOpenTime"
      Except.ok { enabled, threshold, min_request_count, window_time,
                  half_open_time }
  | _ => Except.error "expected a circuitBreaker object"

/-- serde image of `Bulkhead` (`rename_all = "camelCase"`). -/
def Bulkhead.toJson (b : Bulkhead) : Json :=
  Json.obj
    [("enabled", Json.bool b.enabled),
     ("concurrency", Json.num (b.concurrency : Rat)),
     ("maxQueueSize", Json.num (b.max_queue_size : Rat))]

def Bulkhead.fromJson : Json → Except String Bulkhead
  | Json.obj fs => do
      let enabled ← boolField fs "enabled"
      let concurrency ← natField fs "concurrency"
      let max_queue_size ← natField fs "maxQueueSize"
      Except.ok { enabled, concurrency, max_queue_size }
  | _ => Except.error "expected a bulkhead object"

/-- serde image of `Transit` (`rename_all = "camelCase"`). -/
def Transit.toJson (t : Transit) : Json :=
  Json.obj
    [("maxQueueSize", Json.num (t.max_queue_size : Rat)),
     ("maxChunkSize", Json.num (t.max_chunk_size : Rat)),
     ("disableReconnect", Json.bool t.disable_reconnect),
     ("disableVersionCheck", Json.bool t.disable_version_check),
     ("packetLogFilter", Json.arr (t.packet_log_filter.map Json.str))]

def Transit.fromJson : Json → Except String Transit
  | Json.obj fs => do
      let max_queue_size ← natField fs "maxQueueSize"
      let max_chunk_size ← natField fs "maxChunkSize"
      let disable_reconnect ← boolField fs "disableReconnect"
      let disable_version_check ← boolField fs "disableVersionCheck"
      let packet_log_filter ←
        (jsonLookup fs "packetLogFilter").bind (fun j =>
          match j with
          | Json.arr es => strListFromJson es
          | _ => Except.error "expected an array")
      Except.ok { max_queue_size, max_chunk_size, disable_reconnect,
                  disable_version_check, packet_log_filter }
  | _ => Except.error "expected a transit object"

/-- serde image of `Config`: `rename_all = "camelCase"` over the declared
field order, with the one explicit override `#[serde(rename = "nodeID")]` on
`node_id` (src/config.rs lines 101-129). -/
def Config.toJson (c : Config) : Json :=
  Json.obj
    [("namespace", Json.str c.«namespace»),
     ("nodeID", Json.str c.node_id),
     ("logger", c.logger.toJson),
     ("logLevel", c.log_level.toJson),
     ("transporter", c.transporter.toJson),
     ("requestTimeout", Json.num (c.request_timeout : Rat)),
     ("retryPolicy", c.retry_policy.toJson),
     ("contextParamsCloning", Json.bool c.context_params_cloning),
     ("dependencyInternal", Json.num (c.dependency_internal : Rat)),
     ("maxCallLevel", Json.num (c.max_call_level : Rat)),
     ("heartbeatInterval", Json.num (c.heartbeat_interval : Rat)),
     ("heartbeatTimeout", Json.num (c.heartbeat_timeout : Rat)),
     ("tracking", c.tracking.toJson),
     ("disableBalancer", Json.bool c.disable_balancer),
     ("registry", c.registry.toJson),
     ("circuitBreaker", c.circuit_breaker.toJson),
     ("bulkhead", c.bulkhead.toJson),
     ("transit", c.transit.toJson),
     ("serializer", c.serializer.toJson),
     ("metaData", Json.obj (c.meta_data.map (fun kv => (kv.1, Json.str kv.2)))),
     ("ipList", Json.arr (c.ip_list.map Json.str)),
     ("hostname", Json.str c.hostname),
     ("instanceId", Json.str c.instance_id)]

/-- Modelled from the spec: `Config` derives only `Serialize` in the source;
the round-trip property quantifies over "Config-shaped values", so the decoder
a `Deserialize` derive would generate (field-wise, through the component
types' own derived decoders) is modelled here. -/
def Config.fromJson : Json → Except String Config
  | Json.obj fs => do
      let ns ← strField fs "namespace"
      let node_id ← strField fs "nodeID"
      let logger ← (jsonLookup fs "logger").bind Logger.fromJson
      let log_level ← (jsonLookup fs "logLevel").bind Level.fromJson
      let transporter ← (jsonLookup fs "transporter").bind Transporter.fromJson
      let request_timeout ← intField fs "requestTimeout"
      let retry_policy ← (jsonLookup fs "retryPolicy").bind RetryPolicy.fromJson
      let context_params_cloning ← boolField fs "contextParamsCloning"
      let dependency_internal ← natField fs "dependencyInternal"
      let max_call_level ← natField fs "maxCallLevel"
      let heartbeat_interval ← natField fs "heartbeatInterval"
      let heartbeat_timeout ← natField fs "heartbeatTimeout"
      let tracking ← (jsonLookup fs "tracking").bind Tracking.fromJson
      let disable_balancer ← boolField fs "disableBalancer"
      let registry ← (jsonLookup fs "registry").bind Registry.fromJson
      let circuit_breaker ←
        (jsonLookup fs "circuitBreaker").bind CircuitBreaker.fromJson
      let bulkhead ← (jsonLookup fs "bulkhead").bind Bulkhead.fromJson
      let transit ← (jsonLookup fs "transit").bind Transit.fromJson
      let serializer ← (jsonLookup fs "serializer").bind Serializer.fromJson
      let meta_data ←
        (jsonLookup fs "metaData").bind (fun j =>
          match j with
          | Json.obj mfs => strPairsFromJson mfs
          | _ => Except.error "expected an object")
      let ip_list ←
        (jsonLookup fs "ipList").bind (fun j =>
          match j with
          | Json.arr es => strListFromJson es
          | _ => Except.error "expected an array")
      let hostname ← strField fs "hostname"
      let instance_id ← strField fs "instanceId"
      Except.ok
        { «namespace» := ns, node_id, logger, log_level, transporter,
          request_timeout, retry_policy, context_params_cloning,
          dependency_internal, max_call_level, heartbeat_interval,
          heartbeat_timeout, tracking, disable_balancer, registry,
          circuit_breaker, bulkhead, transit, serializer, meta_data,
          ip_list, hostname, instance_id }
  | _ => Except.error "expected a config object"

/-- `SerializeError` (src/config.rs lines 314-318); the payload is the
underlying codec diagnostic. -/
inductive SerializeError where
  | JSON (msg : String)

/-- `DeserializeError` (src/config.rs lines 320-324). -/
inductive DeserializeError where
  | JSON (msg : String)

/-- `Serializer::serialize` (src/config.rs lines 170-174). Modelled from the
spec at the document level: `serde_json::to_vec` is external, so the produced
bytes are represented by the JSON document `enc msg`, the serde image of the
value. -/
def Serializer.serialize {T : Type} (s : Serializer) (enc : T → Json)
    (msg : T) : Except SerializeError Json :=
  match s with
  | Serializer.JSON => Except.ok (enc msg)

/-- `Serializer::deserialize` (src/config.rs lines 176-180), at the same
document level; a codec failure is wrapped in `DeserializeError::JSON`. -/
def Serializer.deserialize {T : Type} (s : Serializer)
    (dec : Json → Except String T) (msg : Json) : Except DeserializeError T :=
  match s with
  | Serializer.JSON =>
      match dec msg with
      | Except.ok v => Except.ok v
      | Except.error e => Except.error (DeserializeError.JSON e)

/-- The serde field list of `Config` as declared in the source: each Rust
field name with its explicit `rename` override, if any. -/
def Config.serde_fields : List (String × Option String) :=
  [("namespace", none), ("node_id", some "nodeID"), ("logger", none),
   ("log_level", none), ("transporter", none), ("request_timeout", none),
   ("retry_policy", none), ("context_params_cloning", none),
   ("dependency_internal", none), ("max_call_level", none),
   ("heartbeat_interval", none), ("heartbeat_timeout", none),
   ("tracking", none), ("disable_balancer", none), ("registry", none),
   ("circuit_breaker", none), ("bulkhead", none), ("transit", none),
   ("serializer", none), ("meta_data", none), ("ip_list", none),
   ("hostname", none), ("instance_id", none)]

/-! ### Properties -/

/-- Shape of every derived topic: namespace prefix, a dot, the role word, and
the node-id tail exactly for node-scoped roles. -/
theorem channel_to_string_data (c : Channel) (config : Config) :
    (c.channel_to_string config).data
      = (mol config).data ++ ('.' :: c.roleWord.data) ++ c.idTail config := by
  cases c <;>
    simp only [Channel.channel_to_string, Channel.roleWord, Channel.idTail,
      Channel.appends_node_id, String.data_append, List.append_assoc, cond] <;>
    rfl

/-- With an empty namespace the prefix helper returns the bare `"MOL"`. -/
theorem mol_of_empty (config : Config) (h : config.«namespace» = "") :
    mol config = "MOL" := by
  simp [mol, h, String.isEmpty_iff]

/-- With a non-empty namespace the prefix helper returns `"MOL-" + namespace`. -/
theorem mol_of_nonempty (config : Config) (h : config.«namespace» ≠ "") :
    mol config = "MOL-" ++ config.«namespace» := by
  have : config.«namespace».isEmpty = false := by
    cases he : config.«namespace».isEmpty
    · rfl
    · exact absurd ((String.isEmpty_iff _).mp he) h
  simp [mol, this]

/-- None of the role words contains a dot. -/
theorem roleWord_dot_free : ∀ c : Channel, '.' ∉ c.roleWord.data := by
  decide

/-- A channel is determined by its role word together with whether it is
node-scoped. -/
theorem roleWord_scoping_determines : ∀ c₁ c₂ : Channel,
    c₁.roleWord = c₂.roleWord → c₁.appends_node_id = c₂.appends_node_id →
    c₁ = c₂ := by
  decide

/-- Splitting at the first dot: appending `.r` to dot-free lists is injective
in both parts. -/
theorem dot_free_append_inj : ∀ (l₁ l₂ r₁ r₂ : List Char), '.' ∉ l₁ → '.' ∉ l₂ →
    l₁ ++ '.' :: r₁ = l₂ ++ '.' :: r₂ → l₁ = l₂ ∧ r₁ = r₂ := by
  intro l₁
  induction l₁ with
  | nil =>
    intro l₂ r₁ r₂ _ h₂ h
    cases l₂ with
    | nil => exact ⟨rfl, by simpa using h⟩
    | cons c l₂ =>
      simp only [List.nil_append, List.cons_append, List.cons.injEq] at h
      exact absurd (h.1 ▸ List.mem_cons_self c l₂) h₂
  | cons c l₁ ih =>
    intro l₂ r₁ r₂ h₁ h₂ h
    cases l₂ with
    | nil =>
      simp only [List.nil_append, List.cons_append, List.cons.injEq] at h
      exact absurd (h.1.symm ▸ List.mem_cons_self c l₁) h₁
    | cons d l₂ =>
      simp only [List.cons_append, List.cons.injEq] at h
      have rec := ih l₂ r₁ r₂ (fun hm => h₁ (List.mem_cons_of_mem c hm))
        (fun hm => h₂ (List.mem_cons_of_mem d hm)) h.2
      exact ⟨by rw [h.1, rec.1], rec.2⟩

/-- A dot-free list is never an append that introduces a dot. -/
theorem dot_free_ne_append (l₁ l₂ r : List Char) (h₁ : '.' ∉ l₁) :
    l₁ ≠ l₂ ++ '.' :: r := by
  intro h
  exact h₁ (h ▸ List.mem_append_right l₂ (List.mem_cons_self '.' r))

/-- Core injectivity: for any one config, distinct channels derive distinct
topic strings. -/
theorem channel_to_string_inj_core (config : Config) (c₁ c₂ : Channel)
    (h : c₁.channel_to_string config = c₂.channel_to_string config) :
    c₁ = c₂ := by
  have hd := congrArg String.data h
  rw [channel_to_string_data, channel_to_string_data] at hd
  simp only [List.append_assoc, List.cons_append, List.nil_append] at hd
  have hd' := List.append_cancel_left hd
  have htail : c₁.roleWord.data ++ c₁.idTail config
      = c₂.roleWord.data ++ c₂.idTail config := by
    injection hd'
  apply roleWord_scoping_determines
  case a =>
    cases hb₁ : c₁.appends_node_id <;> cases hb₂ : c₂.appends_node_id <;>
      simp only [Channel.idTail, hb₁, hb₂, cond_true, cond_false,
        List.append_nil] at htail
    · exact String.ext htail
    · exact absurd htail (dot_free_ne_append _ _ _ (roleWord_dot_free c₁))
    · exact absurd htail.symm (dot_free_ne_append _ _ _ (roleWord_dot_free c₂))
    · exact String.ext (dot_free_append_inj _ _ _ _ (roleWord_dot_free c₁)
        (roleWord_dot_free c₂) htail).1
  case a =>
    cases hb₁ : c₁.appends_node_id <;> cases hb₂ : c₂.appends_node_id <;>
      simp only [Channel.idTail, hb₁, hb₂, cond_true, cond_false,
        List.append_nil] at htail
    · rfl
    · exact absurd htail (dot_free_ne_append _ _ _ (roleWord_dot_free c₁))
    · exact absurd htail.symm (dot_free_ne_append _ _ _ (roleWord_dot_free c₂))
    · rfl

/-- The spec's scenario table (§8): concrete derivations on both sides of the
namespace split. -/
theorem derive_scenarios :
    Channel.Event.channel_to_string (testConfig "" "node-42") = "MOL.EVENT.node-42"
    ∧ Channel.Discover.channel_to_string (testConfig "" "node-42") = "MOL.DISCOVER"
    ∧ Channel.Heartbeat.channel_to_string (testConfig "prod" "node-7") = "MOL-prod.HEARTBEAT"
    ∧ Channel.Response.channel_to_string (testConfig "prod" "node-7") = "MOL-prod.RES.node-7" := by
  exact ⟨rfl, rfl, rfl, rfl⟩

/-- C1: every topic derived by `Channel::channel_to_string` begins with
`"MOL."` when the config's namespace is empty, and with
`"MOL-" ++ namespace ++ "."` when it is non-empty. -/
theorem topic_namespace_prefix_c1 (config : Config) (c : Channel) :
    (config.«namespace» = "" →
      ∃ rest, c.channel_to_string config = "MOL." ++ rest)
    ∧ (config.«namespace» ≠ "" →
      ∃ rest, c.channel_to_string config
        = "MOL-" ++ config.«namespace» ++ "." ++ rest) := by
  constructor
  · intro h
    refine ⟨c.restOf config, ?_⟩
    apply String.ext
    rw [channel_to_string_data, mol_of_empty config h]
    simp only [String.data_append, Channel.restOf]
    rfl
  · intro h
    refine ⟨c.restOf config, ?_⟩
    apply String.ext
    rw [channel_to_string_data, mol_of_nonempty config h]
    simp only [String.data_append, Channel.restOf, List.append_assoc,
      List.cons_append]
    rfl

/-- C2 counterexample: with namespace `""` and node id `"MOL"`, the broadcast
role Discover derives `"MOL.DISCOVER"`, which does contain the node id as a
substring. -/
theorem broadcast_contains_node_id_cex :
    Channel.Discover ∈ broadcast_roles
    ∧ Channel.Discover.channel_to_string (testConfig "" "MOL") = "MOL.DISCOVER"
    ∧ (testConfig "" "MOL").node_id.data
        <:+: (Channel.Discover.channel_to_string (testConfig "" "MOL")).data := by
  refine ⟨by decide, rfl, ?_⟩
  decide

/-- C2 (amended): node-scoped roles' topics end with `"." ++ node_id`, and
broadcast roles' topics do not depend on the node id at all (the literal
node-id string may still occur in them coincidentally). -/
theorem node_scoping_amended_c2 (config : Config) (c : Channel) :
    (c ∈ node_scoped_roles →
      ∃ pre, c.channel_to_string config = pre ++ "." ++ config.node_id)
    ∧ (c ∈ broadcast_roles → ∀ nid : String,
      c.channel_to_string config
        = c.channel_to_string { config with node_id := nid }) := by
  constructor
  · intro hmem
    have hflag : c.appends_node_id = true :=
      (show ∀ x ∈ node_scoped_roles, x.appends_node_id = true by decide) c hmem
    refine ⟨mol config ++ "." ++ c.roleWord, ?_⟩
    apply String.ext
    rw [channel_to_string_data]
    simp only [Channel.idTail, hflag, cond_true, String.data_append,
      List.append_assoc, List.cons_append]
    rfl
  · intro hmem nid
    have hflag : c.appends_node_id = false :=
      (show ∀ x ∈ broadcast_roles, x.appends_node_id = false by decide) c hmem
    apply String.ext
    rw [channel_to_string_data, channel_to_string_data]
    simp only [Channel.idTail, hflag, cond_false, List.append_nil]
    rfl

/-- C3: the table built by `Channel::build_hashmap` binds exactly the 13
channel variants, each to its `channel_to_string` value. -/
theorem build_hashmap_complete_c3 (config : Config) :
    ((Channel.build_hashmap config).map Prod.fst = Channel.all)
    ∧ Channel.all.length = 13
    ∧ (∀ c : Channel, c ∈ Channel.all)
    ∧ (∀ c : Channel, (Channel.build_hashmap config).lookup c
        = some (c.channel_to_string config)) := by
  refine ⟨rfl, rfl, by decide, ?_⟩
  intro c
  cases c <;> rfl

/-- C4: the Pong topic is the PongPrefix topic extended with
`"." ++ node_id`, and the two topics are always distinct. -/
theorem pong_vs_pong_base_c4 (config : Config) :
    Channel.Pong.channel_to_string config
      = Channel.PongPrefix.channel_to_string config ++ "." ++ config.node_id
    ∧ Channel.Pong.channel_to_string config
      ≠ Channel.PongPrefix.channel_to_string config := by
  constructor
  · apply String.ext
    simp only [Channel.channel_to_string, String.data_append, List.append_assoc]
    rfl
  · intro h
    exact absurd (channel_to_string_inj_core config _ _ h) (by decide)

/-- C9: each free derivation function of src/channel/name.rs returns exactly
the topic of the corresponding `Channel` variant. -/
theorem name_functions_match_c9 (config : Config) :
    name.event config = Channel.Event.channel_to_string config
    ∧ name.request config = Channel.Request.channel_to_string config
    ∧ name.response config = Channel.Response.channel_to_string config
    ∧ name.discover config = Channel.Discover.channel_to_string config
    ∧ name.discover_targeted config
        = Channel.DiscoverTargeted.channel_to_string config
    ∧ name.info config = Channel.Info.channel_to_string config
    ∧ name.info_targeted config = Channel.InfoTargeted.channel_to_string config
    ∧ name.heartbeat config = Channel.Heartbeat.channel_to_string config
    ∧ name.ping config = Channel.Ping.channel_to_string config
    ∧ name.ping_targeted config = Channel.PingTargeted.channel_to_string config
    ∧ name.pong config = Channel.Pong.channel_to_string config
    ∧ name.disconnect config = Channel.Disconnect.channel_to_string config := by
  exact ⟨rfl, rfl, rfl, rfl, rfl, rfl, rfl, rfl, rfl, rfl, rfl, rfl⟩

/-- C10: for every config, distinct channels derive distinct topic strings,
so the derived table carries 13 pairwise distinct topics. -/
theorem channel_to_string_injective_c10 (config : Config) :
    (∀ c₁ c₂ : Channel,
      c₁.channel_to_string config = c₂.channel_to_string config → c₁ = c₂)
    ∧ ((Channel.build_hashmap config).map Prod.snd).Nodup
    ∧ (Channel.build_hashmap config).length = 13 := by
  refine ⟨channel_to_string_inj_core config, ?_, rfl⟩
  have heq : (Channel.build_hashmap config).map Prod.snd
      = Channel.all.map (fun c => c.channel_to_string config) := rfl
  rw [heq]
  exact List.Nodup.map
    (fun a b h => channel_to_string_inj_core config a b h) (by decide)

/-- C5: a builder constructed with no user overrides carries exactly the
documented defaults. `util::gen_node_id`'s randomness enters as `seed`; its
result is non-empty for every seed. The default transporter address is the
local-loopback `nats://localhost:4222`. The `f32` threshold `0.5` is the
rational `1/2`; "reconnect and version-check enabled" is
`disable_reconnect = false` and `disable_version_check = false`. -/
theorem builder_defaults_c5 (seed : Nat) :
    (ConfigBuilder.default seed).«namespace» = ""
    ∧ (ConfigBuilder.default seed).node_id ≠ ""
    ∧ (ConfigBuilder.default seed).logger = Logger.Console
    ∧ (ConfigBuilder.default seed).log_level = Level.Info
    ∧ (ConfigBuilder.default seed).transporter
        = Transporter.Nats "nats://localhost:4222"
    ∧ (ConfigBuilder.default seed).request_timeout = 0
    ∧ (ConfigBuilder.default seed).retry_policy
        = { enabled := false, retries := 5, delay := 100, max_delay := 2000,
            factor := 2 }
    ∧ (ConfigBuilder.default seed).heartbeat_interval = 5
    ∧ (ConfigBuilder.default seed).heartbeat_timeout = 15
    ∧ (ConfigBuilder.default seed).tracking
        = { enabled := false, shutdown_timeout := 10000 }
    ∧ (ConfigBuilder.default seed).registry = Registry.Local
    ∧ (ConfigBuilder.default seed).circuit_breaker
        = { enabled := false, threshold := 1 / 2, min_request_count := 20,
            window_time := 60, half_open_time := 10000 }
    ∧ (ConfigBuilder.default seed).bulkhead
        = { enabled := false, concurrency := 3, max_queue_size := 10 }
    ∧ (ConfigBuilder.default seed).transit.max_queue_size = 50000
    ∧ (ConfigBuilder.default seed).transit.max_chunk_size = 256
    ∧ (ConfigBuilder.default seed).transit.disable_reconnect = false
    ∧ (ConfigBuilder.default seed).transit.disable_version_check = false
    ∧ (ConfigBuilder.default seed).serializer = Serializer.JSON := by
  refine ⟨rfl, ?_, rfl, rfl, rfl, rfl, rfl, rfl, rfl, rfl, rfl, rfl, rfl, rfl,
    rfl, rfl, rfl, rfl⟩
  intro h
  have h' : "node-" ++ toString seed = "" := h
  have hd := congrArg String.data h'
  rw [String.data_append, show ("" : String).data = [] from rfl] at hd
  exact absurd (List.append_eq_nil.mp hd).1 (by decide)

/-- C7: `ConfigBuilder::build` is total. When interface enumeration fails the
ip list is empty and the Config is still produced (user fields intact); when
it succeeds, every entry of the ip list renders an IPv4, non-loopback address
of an enumerated interface. -/
theorem build_ip_list_c7 (b : ConfigBuilder) (host inst : String) :
    (∀ e, (b.build host inst (Except.error e)).ip_list = [])
    ∧ (∀ r : Except String (List Interface),
        (b.build host inst r).«namespace» = b.«namespace»
        ∧ (b.build host inst r).node_id = b.node_id
        ∧ (b.build host inst r).hostname = host
        ∧ (b.build host inst r).instance_id = inst)
    ∧ (∀ ifs : List Interface,
        ∀ s ∈ (b.build host inst (Except.ok ifs)).ip_list,
        ∃ ip : IpAddr, ip ∈ ifs.map Interface.ip
          ∧ ip.is_ipv4 = true ∧ ip.is_loopback = false ∧ s = ip.to_string) := by
  refine ⟨fun _e => rfl, fun r => ⟨rfl, rfl, rfl, rfl⟩, ?_⟩
  intro ifs s hs
  simp only [ConfigBuilder.build] at hs
  rcases List.mem_map.mp hs with ⟨ip, hip, rfl⟩
  have hfil := List.mem_filter.mp hip
  have hcond := hfil.2
  rw [Bool.and_eq_true, Bool.not_eq_true'] at hcond
  exact ⟨ip, hfil.1, hcond.1, hcond.2, rfl⟩

/-- C6: every serialized Config uses camelCase keys (the explicit `nodeID`
rename apart): the key list is exactly the declared fields mapped through
serde's camelCase rule or their rename override; the node identifier is under
`"nodeID"`, never `"nodeId"`, and `request_timeout` under
`"requestTimeout"`. -/
theorem config_serialization_keys_c6 (config : Config) :
    (Config.toJson config).objKeys
      = Config.serde_fields.map (fun f => f.2.getD (camelCase f.1))
    ∧ (Config.toJson config).objKeys.get? 1 = some "nodeID"
    ∧ "nodeId" ∉ (Config.toJson config).objKeys
    ∧ "requestTimeout" ∈ (Config.toJson config).objKeys := by
  have hkeys : (Config.toJson config).objKeys
      = Config.serde_fields.map (fun f => f.2.getD (camelCase f.1)) := by
    rfl
  refine ⟨hkeys, rfl, ?_, ?_⟩
  · rw [show (Config.toJson config).objKeys
        = ["namespace", "nodeID", "logger", "logLevel", "transporter",
           "requestTimeout", "retryPolicy", "contextParamsCloning",
           "dependencyInternal", "maxCallLevel", "heartbeatInterval",
           "heartbeatTimeout", "tracking", "disableBalancer", "registry",
           "circuitBreaker", "bulkhead", "transit", "serializer", "metaData",
           "ipList", "hostname", "instanceId"] from rfl]
    decide
  · rw [show (Config.toJson config).objKeys
        = ["namespace", "nodeID", "logger", "logLevel", "transporter",
           "requestTimeout", "retryPolicy", "contextParamsCloning",
           "dependencyInternal", "maxCallLevel", "heartbeatInterval",
           "heartbeatTimeout", "tracking", "disableBalancer", "registry",
           "circuitBreaker", "bulkhead", "transit", "serializer", "metaData",
           "ipList", "hostname", "instanceId"] from rfl]
    decide

/-- Reducing a bind whose first step already succeeded. -/
theorem exceptBindOk {α β ε : Type} (a : α) (f : α → Except ε β) :
    Except.bind (Except.ok a) f = f a :=
  rfl

/-- Round trip of the `Logger` codec. -/
theorem logger_roundtrip (l : Logger) :
    Logger.fromJson (Logger.toJson l) = Except.ok l := by
  cases l
  rfl

/-- Round trip of the `log::Level` codec. -/
theorem level_roundtrip (l : Level) :
    Level.fromJson (Level.toJson l) = Except.ok l := by
  cases l <;> rfl

/-- Round trip of the `Transporter` codec. -/
theorem transporter_roundtrip (t : Transporter) :
    Transporter.fromJson (Transporter.toJson t) = Except.ok t := by
  cases t
  rfl

/-- Round trip of the `Registry` codec. -/
theorem registry_roundtrip (r : Registry) :
    Registry.fromJson (Registry.toJson r) = Except.ok r := by
  cases r
  rfl

/-- Round trip of the `Serializer` codec. -/
theorem serializer_roundtrip (s : Serializer) :
    Serializer.fromJson (Serializer.toJson s) = Except.ok s := by
  cases s
  rfl

/-- Round trip of a serialized `Vec<String>`. -/
theorem strList_roundtrip (l : List String) :
    strListFromJson (l.map Json.str) = Except.ok l := by
  induction l with
  | nil => rfl
  | cons a t ih => simp [strListFromJson, ih, Except.map]

/-- Round trip of a serialized `HashMap<String, String>`. -/
theorem strPairs_roundtrip (m : List (String × String)) :
    strPairsFromJson (m.map (fun kv => (kv.1, Json.str kv.2)))
      = Except.ok m := by
  induction m with
  | nil => rfl
  | cons kv t ih =>
    cases kv
    simp [strPairsFromJson, ih, Except.map]

/-- Round trip of the `Transit` codec. -/
theorem transit_roundtrip (t : Transit) :
    Transit.fromJson (Transit.toJson t) = Except.ok t := by
  have hshow : Transit.fromJson (Transit.toJson t)
      = (strListFromJson (t.packet_log_filter.map Json.str)).bind
          (fun packet_log_filter => Except.ok
            { max_queue_size := t.max_queue_size
              max_chunk_size := t.max_chunk_size
              disable_reconnect := t.disable_reconnect
              disable_version_check := t.disable_version_check
              packet_log_filter }) := rfl
  rw [hshow]
  simp only [strList_roundtrip, exceptBindOk]

/-- Round trip of the full Config document: the reductions stop exactly at
the enum, map and vector fields, which the component lemmas discharge. -/
theorem config_fromJson_toJson (c : Config) :
    Config.fromJson (Config.toJson c) = Except.ok c := by
  have hshow : Config.fromJson (Config.toJson c)
      = (Logger.fromJson (Logger.toJson c.logger)).bind (fun logger =>
          (Level.fromJson (Level.toJson c.log_level)).bind (fun log_level =>
            (Transporter.fromJson (Transporter.toJson c.transporter)).bind
              (fun transporter =>
                (Registry.fromJson (Registry.toJson c.registry)).bind
                  (fun registry =>
                    (Transit.fromJson (Transit.toJson c.transit)).bind
                      (fun transit =>
                        (Serializer.fromJson
                            (Serializer.toJson c.serializer)).bind
                          (fun serializer =>
                            (strPairsFromJson (c.meta_data.map
                                (fun kv => (kv.1, Json.str kv.2)))).bind
                              (fun meta_data =>
                                (strListFromJson
                                    (c.ip_list.map Json.str)).bind
                                  (fun ip_list => Except.ok
                                    { «namespace» := c.«namespace»
                                      node_id := c.node_id
                                      logger
                                      log_level
                                      transporter
                                      request_timeout := c.request_timeout
                                      retry_policy := c.retry_policy
                                      context_params_cloning :=
                                        c.context_params_cloning
                                      dependency_internal :=
                                        c.dependency_internal
                                      max_call_level := c.max_call_level
                                      heartbeat_interval :=
                                        c.heartbeat_interval
                                      heartbeat_timeout := c.heartbeat_timeout
                                      tracking := c.tracking
                                      disable_balancer := c.disable_balancer
                                      registry
                                      circuit_breaker := c.circuit_breaker
                                      bulkhead := c.bulkhead
                                      transit
                                      serializer
                                      meta_data
                                      ip_list
                                      hostname := c.hostname
                                      instance_id :=
                                        c.instance_id })))))))) := rfl
  rw [hshow]
  simp only [logger_roundtrip, level_roundtrip, transporter_roundtrip,
    registry_roundtrip, transit_roundtrip, serializer_roundtrip,
    strPairs_roundtrip, strList_roundtrip, exceptBindOk]

/-- C8: for the JSON codec, serialization always succeeds on a Config-shaped
value and deserializing the produced document gives the value back. -/
theorem json_roundtrip_c8 (config : Config) :
    ∃ doc, Serializer.JSON.serialize Config.toJson config = Except.ok doc
      ∧ Serializer.JSON.deserialize Config.fromJson doc
          = Except.ok config := by
  refine ⟨Config.toJson config, rfl, ?_⟩
  simp only [Serializer.deserialize, config_fromJson_toJson]
